import Mathlib

/-!
A shallow embedding of `restful/api.py` (a generic REST API over elixir/SQLAlchemy
models) and proofs about the claims of its specification.

Modelling conventions:
* Python runtime values that flow through the API (JSON-decoded request data,
  filter arguments, column values) are modelled by `PyVal`.  JSON numbers are
  modelled as integers (the claims only involve integers).
* A raised Python exception is modelled as `Except.error` carrying a `PyError`.
  Error message strings are abbreviated versions of CPython messages; only the
  constructor (exception class) is semantically load-bearing.
* The external storage layer (query execution, serialization, get-or-create,
  date parsing) is abstracted as an explicit `Engine` record of functions, and
  the per-model table of rows as a `List Instance`; the code under test never
  executes queries itself, it only composes them.
-/

namespace Restful

/-- A Python runtime value, as produced by `json.loads` and passed around the
API.  Numbers are modelled as integers. -/
inductive PyVal where
  | none
  | bool (b : Bool)
  | int (n : Int)
  | str (s : String)
  | list (xs : List PyVal)
  | dict (kvs : List (String × PyVal))
deriving Repr

/-- Python truthiness (`bool(v)`): `None`, `False`, `0`, `""`, `[]`, `{}` are
falsy, everything else is truthy. -/
def PyVal.truthy : PyVal → Bool
  | .none => false
  | .bool b => b
  | .int n => n != 0
  | .str s => !s.isEmpty
  | .list xs => !xs.isEmpty
  | .dict kvs => !kvs.isEmpty

/-- Python `==` on the modelled values: structural, with `bool`/`int` numeric
cross-equality (`True == 1`).  Dict comparison is modelled as ordered pairwise
comparison (the API only compares dicts with identical construction order). -/
def pyEq : PyVal → PyVal → Bool
  | .none, .none => true
  | .bool a, .bool b => a == b
  | .bool a, .int n => (if a then (1 : Int) else 0) == n
  | .int n, .bool b => n == (if b then (1 : Int) else 0)
  | .int a, .int b => a == b
  | .str a, .str b => a == b
  | .list [], .list [] => true
  | .list (a :: as), .list (b :: bs) => pyEq a b && pyEq (.list as) (.list bs)
  | .dict [], .dict [] => true
  | .dict ((k, v) :: as), .dict ((k2, v2) :: bs) =>
      k == k2 && pyEq v v2 && pyEq (.dict as) (.dict bs)
  | _, _ => false

/-- A raised Python exception, by exception class.  The `unknownOperator`
constructor exists so that the specification's `UnknownOperator` error is
expressible; the embedded code never produces it. -/
inductive PyError where
  | typeError (msg : String)
  | valueError (msg : String)
  | overflowError (msg : String)
  | nameError (name : String)
  | attributeError (msg : String)
  | keyError (key : String)
  | noResultFound
  | multipleResultsFound
  | unknownOperator (token : String)
deriving Repr, DecidableEq

/-- The exception classes caught around every `json.loads` call in the source:
`except (TypeError, ValueError, OverflowError)`. -/
def caughtDecodeError : PyError → Bool
  | .typeError _ => true
  | .valueError _ => true
  | .overflowError _ => true
  | _ => false

/-- `Except.isOk` as a plain Boolean discriminator. -/
def isOkE {α : Type} : Except PyError α → Bool
  | .ok _ => true
  | .error _ => false

/-- Effectful `map` over a list, stopping at the first raised exception, in
source order (a Python list comprehension over a fallible body). -/
def mapE {α β : Type} (f : α → Except PyError β) : List α → Except PyError (List β)
  | [] => .ok []
  | x :: xs =>
    match f x with
    | .error e => .error e
    | .ok y =>
      match mapE f xs with
      | .error e => .error e
      | .ok ys => .ok (y :: ys)

/-- Effectful iteration over a list discarding results (a Python `for` loop
with a fallible body). -/
def forE {α : Type} (f : α → Except PyError Unit) : List α → Except PyError Unit
  | [] => .ok ()
  | x :: xs => do
    let _ ← f x
    forE f xs

/-- Effectful left fold (a Python `for` loop accumulating a value). -/
def foldE {α β : Type} (f : β → α → Except PyError β) : β → List α → Except PyError β
  | b, [] => .ok b
  | b, x :: xs => do
    let b' ← f b x
    foldE f b' xs

/-- Lookup in a decoded-JSON dict; the last occurrence of a key wins, matching
`json.loads` semantics for duplicate keys. -/
def dictLookup (kvs : List (String × PyVal)) (k : String) : Option PyVal :=
  (kvs.reverse.find? (fun p => p.1 == k)).map (·.2)

/-- Python `v.get(k, default)`: only dicts have `.get`; anything else raises
`AttributeError`. -/
def pyGetDefault (v : PyVal) (k : String) (d : PyVal) : Except PyError PyVal :=
  match v with
  | .dict kvs => .ok ((dictLookup kvs k).getD d)
  | _ => .error (.attributeError "object has no attribute get")

/-- Python `v[k]` with a string key. -/
def pySubscript (v : PyVal) (k : String) : Except PyError PyVal :=
  match v with
  | .dict kvs =>
    match dictLookup kvs k with
    | some x => .ok x
    | Option.none => .error (.keyError k)
  | .list _ => .error (.typeError "list indices must be integers")
  | .str _ => .error (.typeError "string indices must be integers")
  | _ => .error (.typeError "object is not subscriptable")

/-- Python iteration `for x in v`: lists yield elements, strings yield
one-character strings, dicts yield their keys; other values raise `TypeError`. -/
def pyIter : PyVal → Except PyError (List PyVal)
  | .list xs => .ok xs
  | .str s => .ok (s.toList.map (fun c => .str c.toString))
  | .dict kvs => .ok (kvs.map (fun p => .str p.1))
  | _ => .error (.typeError "object is not iterable")

/-- Python `len(v)`. -/
def pyLen : PyVal → Except PyError Nat
  | .str s => .ok s.length
  | .list xs => .ok xs.length
  | .dict kvs => .ok kvs.length
  | _ => .error (.typeError "object has no len")

/-- `needle` is a prefix of the character list. -/
def isPrefixList : List Char → List Char → Bool
  | [], _ => true
  | _ :: _, [] => false
  | a :: as, b :: bs => a == b && isPrefixList as bs

/-- `needle` occurs as a contiguous sublist. -/
def isSubList (needle : List Char) : List Char → Bool
  | [] => needle.isEmpty
  | b :: bs => isPrefixList needle (b :: bs) || isSubList needle bs

/-- `sub` occurs as a substring of `s` (for Python `sub in s` on strings). -/
def strContainsSub (s sub : String) : Bool := isSubList sub.toList s.toList

/-- Python `needle in v` for a string needle: substring test on strings,
membership (by Python `==`) on lists, key membership on dicts; `TypeError`
otherwise. -/
def pyContains (v : PyVal) (needle : String) : Except PyError Bool :=
  match v with
  | .dict kvs => .ok ((kvs.map (·.1)).contains needle)
  | .list xs => .ok (xs.any (fun x => pyEq x (.str needle)))
  | .str s => .ok (strContainsSub s needle)
  | _ => .error (.typeError "argument of type is not iterable")

/-- The SQLAlchemy column type of a model attribute: a `Date` column, a
`DateTime` column, any other scalar column, or a relationship attribute. -/
inductive ColType where
  | plain
  | date
  | datetime
  | rel
deriving Repr, DecidableEq

/-- The schema of one registered elixir entity: its name and its mapped
attributes (scalar columns and relationship attributes, as returned by
`get_columns`). -/
structure ModelDesc where
  name : String
  columns : List (String × ColType)
deriving Repr

/-- `model.get_relations()`: the names of the relationship attributes. -/
def ModelDesc.relations (m : ModelDesc) : List String :=
  (m.columns.filter (fun p => p.2 == ColType.rel)).map (·.1)

/-- Whether `getattr(model, s)` resolves (the name is a mapped attribute). -/
def ModelDesc.hasAttr (m : ModelDesc) (s : String) : Bool :=
  (m.columns.map (·.1)).contains s

/-- A resolved SQLAlchemy instrumented attribute: `getattr(model, attr)`. -/
structure FieldRef where
  model : String
  attr : String
deriving Repr, DecidableEq

/-- Python `getattr(model, name)` where `name` is an arbitrary runtime value:
`TypeError` unless it is a string, `AttributeError` unless the model has the
attribute. -/
def getattrModelP (m : ModelDesc) (name : PyVal) : Except PyError FieldRef :=
  match name with
  | .str s =>
    if m.hasAttr s then .ok ⟨m.name, s⟩
    else .error (.attributeError s)
  | _ => .error (.typeError "attribute name must be string")

/-- `getattr(model, k).property.columns[0].type`, the column type used for the
date-coercion special case in `patch`/`_patch_many`.  A relationship property
has no `.columns`, which raises `AttributeError`. -/
def fieldTypeOf (m : ModelDesc) (k : String) : Except PyError ColType :=
  match m.columns.find? (fun p => p.1 == k) with
  | some (_, ColType.rel) => .error (.attributeError "property object has no attribute columns")
  | some (_, t) => .ok t
  | Option.none => .error (.attributeError k)

/-- The second argument handed to an operator lambda: either a literal value
(`f.argument`) or another resolved model field (`getattr(model, f.otherfield)`). -/
inductive Arg where
  | val (v : PyVal)
  | field (f : FieldRef)
deriving Repr

/-- The SQLAlchemy expressions the `OPERATORS` lambdas can build.  `descOf` and
`ascOf` model the (uncalled) bound methods `f.desc` / `f.asc` that those two
entries return. -/
inductive SQLExpr where
  | eq (f : FieldRef) (a : Arg)
  | ne (f : FieldRef) (a : Arg)
  | gt (f : FieldRef) (a : Arg)
  | lt (f : FieldRef) (a : Arg)
  | ge (f : FieldRef) (a : Arg)
  | le (f : FieldRef) (a : Arg)
  | like (f : FieldRef) (a : Arg)
  | inOp (f : FieldRef) (a : Arg)
  | notIn (f : FieldRef) (a : Arg)
  | descOf (f : FieldRef)
  | ascOf (f : FieldRef)
  | hasOp (f : FieldRef) (kw : String) (a : Arg)
  | anyOp (f : FieldRef) (kw : String) (a : Arg)
deriving Repr

/-- The `OPERATORS` mapping from operator token to the lambda
`(f, a, fn) -> expression`.  `is_null`/`is_not_null` compare against `None`
and ignore the argument; `desc`/`asc` return the bound method uncalled;
`has`/`any` build `f.has(**{fn: a})` / `f.any(**{fn: a})`, which raises
`TypeError` when the keyword `fn` is not a string. -/
def OPERATORS : List (String × (FieldRef → Arg → PyVal → Except PyError SQLExpr)) :=
  [ ("==", fun f a _ => .ok (.eq f a)),
    ("eq", fun f a _ => .ok (.eq f a)),
    ("equals", fun f a _ => .ok (.eq f a)),
    ("equal_to", fun f a _ => .ok (.eq f a)),
    ("!=", fun f a _ => .ok (.ne f a)),
    ("neq", fun f a _ => .ok (.ne f a)),
    ("not_equal_to", fun f a _ => .ok (.ne f a)),
    ("does_not_equal", fun f a _ => .ok (.ne f a)),
    (">", fun f a _ => .ok (.gt f a)),
    ("gt", fun f a _ => .ok (.gt f a)),
    ("<", fun f a _ => .ok (.lt f a)),
    ("lt", fun f a _ => .ok (.lt f a)),
    (">=", fun f a _ => .ok (.ge f a)),
    ("gte", fun f a _ => .ok (.ge f a)),
    ("<=", fun f a _ => .ok (.le f a)),
    ("lte", fun f a _ => .ok (.le f a)),
    ("like", fun f a _ => .ok (.like f a)),
    ("in", fun f a _ => .ok (.inOp f a)),
    ("not_in", fun f a _ => .ok (.notIn f a)),
    ("is_null", fun f _ _ => .ok (.eq f (.val .none))),
    ("is_not_null", fun f _ _ => .ok (.ne f (.val .none))),
    ("desc", fun f _ _ => .ok (.descOf f)),
    ("asc", fun f _ _ => .ok (.ascOf f)),
    ("has", fun f a fn =>
      match fn with
      | .str s => .ok (.hasOp f s a)
      | _ => .error (.typeError "keywords must be strings")),
    ("any", fun f a fn =>
      match fn with
      | .str s => .ok (.anyOp f s a)
      | _ => .error (.typeError "keywords must be strings")) ]

/-- `OPERATORS.get(operator)`: `None` for a missing key, `TypeError` for an
unhashable key (a decoded JSON list or object). -/
def lookupOperator (operator : PyVal) :
    Except PyError (Option (FieldRef → Arg → PyVal → Except PyError SQLExpr)) :=
  match operator with
  | .list _ => .error (.typeError "unhashable type")
  | .dict _ => .error (.typeError "unhashable type")
  | .str s => .ok ((OPERATORS.find? (fun p => p.1 == s)).map (·.2))
  | _ => .ok Option.none

/-- The `Function` namedtuple: an aggregate-function name paired with a field
name.  Both components are whatever runtime values the client supplied. -/
structure Function where
  name : PyVal
  field : PyVal
deriving Repr

/-- `Function(**f)`: keyword construction of the namedtuple.  It requires a
mapping with exactly the keys `name` and `field`; anything else raises
`TypeError`. -/
def Function.fromKwargs (v : PyVal) : Except PyError Function :=
  match v with
  | .dict kvs =>
    let keys := kvs.map (·.1)
    if keys.contains "name" && keys.contains "field"
        && keys.all (fun k => k == "name" || k == "field") then
      .ok ⟨(dictLookup kvs "name").getD .none, (dictLookup kvs "field").getD .none⟩
    else .error (.typeError "unexpected or missing keyword argument")
  | _ => .error (.typeError "argument after ** must be a mapping")

/-- `Function.from_dictionary` is called by `SearchParameters.from_dictionary`
(line 164 of the source) but is never defined on the namedtuple, so every call
raises `AttributeError`. -/
def Function.fromDictionaryMissing : PyVal → Except PyError Function :=
  fun _ => .error (.attributeError "type object Function has no attribute from_dictionary")

/-- The `OrderBy` object: a field name and a direction, default `"asc"`. -/
structure OrderBy where
  field : PyVal
  direction : PyVal
deriving Repr

/-- `OrderBy(**o)`: keyword construction.  `field` is required, `direction`
defaults to `"asc"`; any other keyword raises `TypeError`. -/
def OrderBy.fromKwargs (v : PyVal) : Except PyError OrderBy :=
  match v with
  | .dict kvs =>
    let keys := kvs.map (·.1)
    if keys.contains "field" && keys.all (fun k => k == "field" || k == "direction") then
      .ok ⟨(dictLookup kvs "field").getD .none, (dictLookup kvs "direction").getD (.str "asc")⟩
    else .error (.typeError "unexpected or missing keyword argument")
  | _ => .error (.typeError "argument after ** must be a mapping")

/-- A constructed `Filter` object's attributes.  A literal argument and a
comparison field name; both are stored exactly as passed. -/
structure Filter where
  fieldname : PyVal
  operator : PyVal
  argument : PyVal
  otherfield : PyVal
deriving Repr

/-- `Filter.__init__`: rejects (by Python truthiness) the combinations where
`argument` and `otherfield` are both truthy or both falsy.  The `raise`
statement itself evaluates the bare name `ILLEGAL_ARG_MSG`, which is a class
attribute and not in scope as a plain name, so the exception actually raised
is a `NameError`. -/
def Filter.init (fieldname operator argument otherfield : PyVal) : Except PyError Filter :=
  if (argument.truthy && otherfield.truthy) || !(argument.truthy || otherfield.truthy) then
    .error (.nameError "ILLEGAL_ARG_MSG")
  else
    .ok ⟨fieldname, operator, argument, otherfield⟩

/-- `Filter.from_dictionary`: pulls `name`, `op`, `val`, `field` out of the
client-supplied mapping (each defaulting to `None`) and runs the checked
constructor. -/
def Filter.fromDictionary (dictionary : PyVal) : Except PyError Filter := do
  let fieldname ← pyGetDefault dictionary "name" .none
  let operator ← pyGetDefault dictionary "op" .none
  let argument ← pyGetDefault dictionary "val" .none
  let otherfield ← pyGetDefault dictionary "field" .none
  Filter.init fieldname operator argument otherfield

/-- A constructed `SearchParameters` object's attributes.  `order_by` is the
list built by `from_dictionary`; `searchtype`, `limit` and `offset` are the
raw client-supplied values (default `None`). -/
structure SearchParameters where
  filters : List Filter
  functions : List Function
  searchtype : PyVal
  limit : PyVal
  offset : PyVal
  order_by : List OrderBy
deriving Repr

/-- `SearchParameters.__init__`: rejects (by truthiness, i.e. both lists
non-empty) specifications with both filters and functions.  The `raise`
statement names `IllegalArgumentException`, a class that is never defined
(the defined class is `IllegalArgumentError`), so the exception actually
raised is a `NameError` — construction still fails. -/
def SearchParameters.init (filters : List Filter) (functions : List Function)
    (searchtype limit offset : PyVal) (order_by : List OrderBy) :
    Except PyError SearchParameters :=
  if !filters.isEmpty && !functions.isEmpty then
    .error (.nameError "IllegalArgumentException")
  else
    .ok ⟨filters, functions, searchtype, limit, offset, order_by⟩

/-- `SearchParameters.from_string` is declared `@staticmethod` yet its body is
`self.from_dictionary(json.dumps(string))`; `self` is an unbound name there,
so CPython raises `NameError` while evaluating the callee, before any
argument evaluation, for every input string. -/
def SearchParameters.fromString (_string : String) : Except PyError SearchParameters :=
  .error (.nameError "self")

/-- `SearchParameters.from_dictionary`: builds the filter, function and
order-by lists from the client mapping (in source order), then runs the
checked constructor.  The function list is built by calling the nonexistent
`Function.from_dictionary` on each entry, so any non-empty `functions` entry
raises `AttributeError`. -/
def SearchParameters.fromDictionary (dictionary : PyVal) : Except PyError SearchParameters := do
  let filtersRaw ← pyGetDefault dictionary "filters" (.list [])
  let filterItems ← pyIter filtersRaw
  let filters ← mapE Filter.fromDictionary filterItems
  let functionsRaw ← pyGetDefault dictionary "functions" (.list [])
  let functionItems ← pyIter functionsRaw
  let functions ← mapE Function.fromDictionaryMissing functionItems
  let orderRaw ← pyGetDefault dictionary "order_by" (.list [])
  let orderItems ← pyIter orderRaw
  let order_by ← mapE OrderBy.fromKwargs orderItems
  let searchtype ← pyGetDefault dictionary "type" .none
  let limit ← pyGetDefault dictionary "limit" .none
  let offset ← pyGetDefault dictionary "offset" .none
  SearchParameters.init filters functions searchtype limit offset order_by

/-- The target of `getattr(model, relation or fieldname)` in
`_create_operation`: the relation name when it is truthy (non-`None`,
non-empty), else the field name. -/
def relTarget (relation : Option String) (fieldname : PyVal) : PyVal :=
  match relation with
  | some r => if r = "" then fieldname else .str r
  | Option.none => fieldname

/-- `QueryBuilder._create_operation`: resolves
`getattr(model, relation or fieldname)` and then evaluates
`OPERATORS.get(operator)(field, argument, fieldname)`.  When the operator
token is not a key of `OPERATORS`, `.get` returns `None` and the call raises
`TypeError` — there is no dedicated unknown-operator error. -/
def QueryBuilder.createOperation (m : ModelDesc) (fieldname operator : PyVal)
    (argument : Arg) (relation : Option String) : Except PyError SQLExpr := do
  let field ← getattrModelP m (relTarget relation fieldname)
  match (← lookupOperator operator) with
  | some opf => opf field argument fieldname
  | Option.none => .error (.typeError "NoneType object is not callable")

/-- One iteration of the loop in `QueryBuilder._extract_operators`: split a
`relation__field` name when the separator occurs, then build the operation,
passing the resolved other field when `f.otherfield` is truthy and the
literal argument otherwise. -/
def QueryBuilder.filterToOp (m : ModelDesc) (f : Filter) : Except PyError SQLExpr := do
  let hasSep ← pyContains f.fieldname "__"
  let (relation, fname) ←
    if hasSep then
      match f.fieldname with
      | .str s =>
        let parts := s.splitOn "__"
        if parts.length == 2 then
          .ok (some (parts.headD ""), PyVal.str (parts.getLastD ""))
        else
          .error (.valueError "too many values to unpack")
      | _ => (.error (.attributeError "object has no attribute split") :
               Except PyError (Option String × PyVal))
    else
      .ok (Option.none, f.fieldname)
  if f.otherfield.truthy then
    let otherf ← getattrModelP m f.otherfield
    QueryBuilder.createOperation m fname f.operator (.field otherf) relation
  else
    QueryBuilder.createOperation m fname f.operator (.val f.argument) relation

/-- `QueryBuilder._extract_operators`: the list of operations for the filters,
in the filters' own order, stopping at the first raised exception. -/
def QueryBuilder.extractOperators (m : ModelDesc) (sp : SearchParameters) :
    Except PyError (List SQLExpr) :=
  mapE (QueryBuilder.filterToOp m) sp.filters

/-- One step in the composition of a lazy SQLAlchemy query: a `.filter`, an
`.order_by`, a `.limit` or an `.offset` call, recorded in application order. -/
inductive QueryOp where
  | filt (e : SQLExpr)
  | order (f : FieldRef) (direction : String)
  | limit (v : PyVal)
  | offset (v : PyVal)
deriving Repr

/-- One iteration of the ordering loop in `QueryBuilder.create_query`:
`getattr(model, val.field)` then `getattr(field, val.direction)()`.  An
instrumented attribute exposes exactly `asc` and `desc` as ordering methods;
any other direction name raises `AttributeError`, a non-string one
`TypeError`. -/
def resolveOrder (m : ModelDesc) (ob : OrderBy) : Except PyError QueryOp := do
  let f ← getattrModelP m ob.field
  match ob.direction with
  | .str d =>
    if d == "asc" || d == "desc" then .ok (.order f d)
    else .error (.attributeError d)
  | _ => .error (.typeError "attribute name must be string")

/-- `QueryBuilder.create_query`: compose the query by applying, in this order,
the filter operations, the ordering clauses, then `.limit` when
`search_params.limit` is truthy and `.offset` when `search_params.offset` is
truthy. -/
def QueryBuilder.createQuery (m : ModelDesc) (sp : SearchParameters) :
    Except PyError (List QueryOp) := do
  let ops ← QueryBuilder.extractOperators m sp
  let orderOps ← mapE (resolveOrder m) sp.order_by
  let q1 := ops.map QueryOp.filt ++ orderOps
  let q2 := if sp.limit.truthy then q1 ++ [QueryOp.limit sp.limit] else q1
  let q3 := if sp.offset.truthy then q2 ++ [QueryOp.offset sp.offset] else q2
  .ok q3

/-- The module-level `create_query` helper: a dict is parsed with
`SearchParameters.from_dictionary`, a string goes through the broken
`SearchParameters.from_string`, and any other value is handed to
`QueryBuilder.create_query` unconverted, where the attribute access
`search_params.filters` raises `AttributeError`. -/
def create_query (m : ModelDesc) (searchparams : PyVal) : Except PyError (List QueryOp) :=
  match searchparams with
  | .dict kvs => do
    let sp ← SearchParameters.fromDictionary (.dict kvs)
    QueryBuilder.createQuery m sp
  | .str s => do
    let sp ← SearchParameters.fromString s
    QueryBuilder.createQuery m sp
  | _ => .error (.attributeError "object has no attribute filters")

/-- A stored entity instance: its integer primary key and its scalar fields. -/
structure Instance where
  id : Int
  fields : List (String × PyVal)
deriving Repr

/-- A resolved aggregate call `funcobj(field)` handed to
`session.query(...)`: `getattr(func, name)` accepts any string name, the
field is a resolved model attribute. -/
structure SQLFunc where
  name : String
  field : FieldRef
deriving Repr, DecidableEq

/-- The external storage engine, specified only through the interfaces the
core uses: executing a composed query (`.all()` / `.one()` share `runAll`,
with `.one()` inspecting the row count), evaluating a batched aggregate query
(the rows of `session.query(*processed)`), deep-serializing an instance to a
mapping (`to_dict(deep)` — always a mapping, never a list), resolving or
creating related instances, parsing date strings, and the primary key the
next created instance receives. -/
structure Engine where
  runAll : List QueryOp → List Instance
  funcRows : List SQLFunc → List (List PyVal)
  serialize : Instance → List (String × PyVal)
  getBySub : String → PyVal → Option Instance
  getOrCreate : String → PyVal → Instance
  parseDatetime : PyVal → Except PyError PyVal
  nextId : Int

/-- The resolution phase of `_evaluate_functions`: for each `Function`,
`getattr(func, f.name)` (requires a string name) then `getattr(model,
f.field)`; collects the aggregate call and its result key
`"<name>__<field>"`, in order. -/
def resolveFunctions (m : ModelDesc) (functions : List Function) :
    Except PyError (List (SQLFunc × String)) :=
  mapE (fun f =>
    match f.name with
    | .str nm => do
      let fr ← getattrModelP m f.field
      .ok ((⟨nm, fr⟩ : SQLFunc), nm ++ "__" ++ fr.attr)
    | _ => .error (.typeError "attribute name must be string")) functions

/-- `_evaluate_functions`: resolve all the calls, evaluate them as one batched
query, and apply `.one()` to its rows — `NoResultFound` on zero rows,
`MultipleResultsFound` on two or more, else the mapping from result key to
value. -/
def evaluateFunctions (eng : Engine) (m : ModelDesc) (functions : List Function) :
    Except PyError PyVal := do
  let pairs ← resolveFunctions m functions
  match eng.funcRows (pairs.map (·.1)) with
  | [row] => .ok (.dict (List.zip (pairs.map (·.2)) row))
  | [] => .error .noResultFound
  | _ :: _ :: _ => .error .multipleResultsFound

/-- The module-level `search` function: functions, when present, short-circuit
to `_evaluate_functions`; otherwise the query is built and executed, with
`searchtype == 'one'` going through `.one()` (raising `NoResultFound` /
`MultipleResultsFound` on a row count other than one) and every other search
type through `.all()`, serializing each match. -/
def search (eng : Engine) (m : ModelDesc) (sp : SearchParameters) : Except PyError PyVal := do
  if !sp.functions.isEmpty then
    evaluateFunctions eng m sp.functions
  else do
    let q ← QueryBuilder.createQuery m sp
    if pyEq sp.searchtype (.str "one") then
      match eng.runAll q with
      | [] => .error .noResultFound
      | [x] => .ok (.dict (eng.serialize x))
      | _ :: _ :: _ => .error .multipleResultsFound
    else
      .ok (.list ((eng.runAll q).map (fun x => .dict (eng.serialize x))))

/-- The body of an HTTP response produced by the handlers: a `{"message": s}`
mapping, a `{"objects": [...]}` envelope around a list result, a bare
serialized object, or no content. -/
inductive RBody where
  | message (s : String)
  | objects (xs : List PyVal)
  | obj (v : PyVal)
  | empty
deriving Repr

/-- The outcome of one request: either an HTTP response with a status code,
or an exception that escaped the handler (an unhandled server fault). -/
inductive HandlerResult where
  | response (status : Nat) (body : RBody)
  | fault (e : PyError)
deriving Repr

/-- The envelope logic at the end of `API._search`: a list result is wrapped
as `{"objects": ...}` (a top-level JSON array is never transmitted), anything
else is returned as the bare top-level object, with status 200. -/
def respond (result : PyVal) : HandlerResult :=
  match result with
  | .list xs => .response 200 (.objects xs)
  | v => .response 200 (.obj v)

/-- The branch of `API._search` taken when `'functions' in data`: build each
`Function(**f)` from `data['functions']` and run `_evaluate_functions`.  This
branch is not wrapped in any `try`/`except`. -/
def parseFunctionsField (data : PyVal) : Except PyError (List Function) := do
  let raw ← pySubscript data "functions"
  let items ← pyIter raw
  mapE Function.fromKwargs items

/-- `API._search`, taking the outcome of `json.loads` on the `q` query
parameter.  A decode failure of one of the caught classes yields the 400
"Unable to decode data" response.  The functions branch runs uncaught, so any
exception it raises is an unhandled fault; the non-functions branch catches
exactly `NoResultFound` and `MultipleResultsFound`, mapping them to the two
message responses, and lets every other exception escape. -/
def apiSearch (eng : Engine) (m : ModelDesc) (qdecode : Except PyError PyVal) :
    HandlerResult :=
  match qdecode with
  | .error e =>
    if caughtDecodeError e then .response 400 (.message "Unable to decode data")
    else .fault e
  | .ok data =>
    match pyContains data "functions" with
    | .error e => .fault e
    | .ok true =>
      match (do
        let fns ← parseFunctionsField data
        evaluateFunctions eng m fns) with
      | .error e => .fault e
      | .ok result => respond result
    | .ok false =>
      match (do
        let sp ← SearchParameters.fromDictionary data
        search eng m sp) with
      | .error PyError.noResultFound => .response 200 (.message "No result found")
      | .error PyError.multipleResultsFound => .response 200 (.message "Multiple results found")
      | .error e => .fault e
      | .ok result => respond result

/-- `model.get_by(id=instid)`: the stored instance with the given primary
key, if any. -/
def dbFind (db : List Instance) (instid : Int) : Option Instance :=
  db.find? (fun x => x.id == instid)

/-- `API.get`: with no instance id, delegate to `_search`; with an id, look
the instance up by primary key, respond 404 when it is absent and the
deep-serialized instance otherwise. -/
def apiGet (eng : Engine) (m : ModelDesc) (db : List Instance) (instid : Option Int)
    (qdecode : Except PyError PyVal) : HandlerResult :=
  match instid with
  | Option.none => apiSearch eng m qdecode
  | some i =>
    match dbFind db i with
    | Option.none => .response 404 .empty
    | some inst => .response 200 (.obj (.dict (eng.serialize inst)))

/-- Remove the first list element satisfying the predicate (`inst.delete()`
on the instance returned by `get_by`). -/
def deleteFirst {α : Type} (p : α → Bool) : List α → List α
  | [] => []
  | x :: xs => if p x then xs else x :: deleteFirst p xs

/-- `API.delete`: look up by primary key; when found, delete the instance and
commit; respond 204 with no content in every case.  The result is the new
table state, whether a commit happened, and the response. -/
def apiDelete (db : List Instance) (instid : Int) :
    List Instance × Bool × HandlerResult :=
  match dbFind db instid with
  | some _ => (deleteFirst (fun x => x.id == instid) db, true, .response 204 .empty)
  | Option.none => (db, false, .response 204 .empty)

/-- One `add` entry of `_update_relations`: resolve the related instance —
by primary key when `'id' in subparams` (which then requires a mapping, since
`subparams.pop('id')` raises `TypeError` on a list and `AttributeError` on a
string), else by `get_or_create(**subparams)` (which requires a mapping) —
then append it to the relation collection of every target instance.  A
target of `None` (a missing primary instance) makes `getattr(instance, col)`
raise `AttributeError`.  The collection mutation itself lives in the storage
layer. -/
def processAdd (eng : Engine) (col : String) (targets : List (Option Instance))
    (subparams : PyVal) : Except PyError Unit := do
  let hasId ← pyContains subparams "id"
  let _subinst ←
    if hasId then
      match subparams with
      | .dict kvs2 => .ok (eng.getBySub col ((dictLookup kvs2 "id").getD .none))
      | .list _ => (.error (.typeError "pop argument must be an integer") :
                     Except PyError (Option Instance))
      | _ => (.error (.attributeError "object has no attribute pop") :
               Except PyError (Option Instance))
    else
      match subparams with
      | .dict _ => .ok (some (eng.getOrCreate col subparams))
      | _ => (.error (.typeError "argument after ** must be a mapping") :
               Except PyError (Option Instance))
  forE (fun t =>
    match t with
    | some _ => .ok ()
    | Option.none => .error (.attributeError ("NoneType object has no attribute " ++ col)))
    targets

/-- One `remove` entry of `_update_relations`: pop the `__delete__` marker
(`subparams.pop` requires a mapping: a list raises `TypeError`, a string
`AttributeError`; an absent key yields `False`), resolve the related instance
by id or by exact field match, remove it from the relation collection of
every target instance (faulting on a `None` target), and delete it from
storage when the popped marker value is truthy — which faults when the
resolution returned `None`.  The collection membership of the related
instance is storage-layer state, so the `ValueError` that `field.remove`
raises for an absent element is subsumed in the engine abstraction. -/
def processRemove (eng : Engine) (col : String) (targets : List (Option Instance))
    (subparams : PyVal) : Except PyError Unit := do
  let kvs ← (match subparams with
    | .dict kvs => .ok kvs
    | .list _ => (.error (.typeError "pop argument must be an integer") :
                   Except PyError (List (String × PyVal)))
    | _ => (.error (.attributeError "object has no attribute pop") :
             Except PyError (List (String × PyVal))))
  let remove := ((dictLookup kvs "__delete__").getD (.bool false)).truthy
  let rest := kvs.filter (fun p => p.1 != "__delete__")
  let subinst ←
    if (rest.map (·.1)).contains "id" then
      .ok (eng.getBySub col ((dictLookup rest "id").getD .none))
    else
      .ok (eng.getBySub col (.dict rest))
  let _ ← forE (fun t =>
    match t with
    | some _ => .ok ()
    | Option.none => .error (.attributeError ("NoneType object has no attribute " ++ col)))
    targets
  if remove then
    match subinst with
    | some _ => .ok ()
    | Option.none => .error (.attributeError "NoneType object has no attribute delete")
  else
    .ok ()

/-- One iteration of the `_update_relations` loop for a touched relation
`col`: process its `add` entries, then its `remove` entries, against every
target instance, then record the relation name as touched. -/
def processRelation (eng : Engine) (targets : List (Option Instance))
    (kvs : List (String × PyVal)) (fields : List String) (col : String) :
    Except PyError (List String) := do
  let from_request := (dictLookup kvs col).getD .none
  let adds ← pyGetDefault from_request "add" (.list [])
  let addItems ← pyIter adds
  let _ ← forE (processAdd eng col targets) addItems
  let rems ← pyGetDefault from_request "remove" (.list [])
  let remItems ← pyIter rems
  let _ ← forE (processRemove eng col targets) remItems
  .ok (fields ++ [col])

/-- `API._update_relations`: for every declared relation name that occurs
among the payload keys (modelled in declaration order; the source iterates a
set), run one loop iteration.  A non-mapping payload faults on
`params.keys()`. -/
def updateRelations (eng : Engine) (m : ModelDesc) (targets : List (Option Instance))
    (params : PyVal) : Except PyError (List String) :=
  match params with
  | .dict kvs =>
    foldE (processRelation eng targets kvs) []
      (m.relations.filter (fun r => (kvs.map (·.1)).contains r))
  | _ => .error (.attributeError "object has no attribute keys")

/-- The date-coercion loop shared by `patch` and `_patch_many`: for each
remaining field, look up its column type on the model; `Date` and `DateTime`
columns get their value run through `dateutil`\'s parser (abstracted in the
engine), every other scalar column passes its value through. -/
def coerceParams (eng : Engine) (m : ModelDesc) (items : List (String × PyVal)) :
    Except PyError (List (String × PyVal)) :=
  mapE (fun kv => do
    let t ← fieldTypeOf m kv.1
    match t with
    | ColType.date => do
      let d ← eng.parseDatetime kv.2
      .ok (kv.1, d)
    | ColType.datetime => do
      let d ← eng.parseDatetime kv.2
      .ok (kv.1, d)
    | _ => .ok kv) items

/-- `set(data.keys()) ^ relations` — the symmetric difference computing the
plain-field list (modelled in key order; the source iterates a set). -/
def symmDiff (keys touched : List String) : List String :=
  keys.filter (fun k => !touched.contains k) ++ touched.filter (fun k => !keys.contains k)

/-- `setattr(inst, k, v)` on a stored instance: replace the field value. -/
def setField (inst : Instance) (k : String) (v : PyVal) : Instance :=
  { inst with fields := (inst.fields.filter (fun p => p.1 != k)) ++ [(k, v)] }

/-- Replace the instance with the given primary key in the table. -/
def replaceInst (db : List Instance) (instid : Int) (inst : Instance) : List Instance :=
  db.map (fun x => if x.id == instid then inst else x)

/-- `API.patch` for a mandatory instance id, taking the outcome of
`json.loads` on the request body.  Decode failure yields the 400 response; an
empty body yields 204 with no content; otherwise the relation updater runs
against the singleton `[get_by(id)]` target list, the remaining fields are
date-coerced and assigned one by one onto the freshly fetched instance —
`setattr` on the `None` returned for a missing id raises `AttributeError` —
and the response is the freshly retrieved serialized instance (404 when the
id matches nothing and no field assignment was attempted). -/
def apiPatchOne (eng : Engine) (m : ModelDesc) (db : List Instance) (i : Int)
    (bodyDecode : Except PyError PyVal) : HandlerResult :=
  match bodyDecode with
  | .error e =>
    if caughtDecodeError e then .response 400 (.message "Unable to decode data")
    else .fault e
  | .ok data =>
    match pyLen data with
    | .error e => .fault e
    | .ok 0 => .response 204 .empty
    | .ok (_ + 1) =>
      match updateRelations eng m [dbFind db i] data with
      | .error e => .fault e
      | .ok touched =>
        match data with
        | .dict kvs =>
          let keys := kvs.map (·.1)
          let field_list := symmDiff keys touched
          let originalparams := field_list.filterMap
            (fun k => (dictLookup kvs k).map (fun v => (k, v)))
          match coerceParams eng m originalparams with
          | .error e => .fault e
          | .ok params =>
            match dbFind db i with
            | Option.none =>
              match field_list with
              | [] => apiGet eng m db (some i) (.ok .none)
              | k :: _ => .fault (.attributeError ("NoneType object has no attribute " ++ k))
            | some inst =>
              let inst2 := field_list.foldl
                (fun acc k =>
                  match (params.find? (fun p => p.1 == k)).map (·.2) with
                  | some v => setField acc k v
                  | Option.none => acc)
                inst
              apiGet eng m (replaceInst db i inst2) (some i) (.ok .none)
        | _ => .fault (.attributeError "object has no attribute keys")

/-- `API._patch_many`, taking the outcome of `json.loads` on the request
body.  Decode failure yields the 400 response; `create_query` runs before the
empty-body check; the relation updater processes every matched instance; the
remaining fields are date-coerced and applied as one bulk `query.update`,
whose row count is reported as `num_modified` (zero when no plain fields
remain). -/
def apiPatchMany (eng : Engine) (m : ModelDesc)
    (bodyDecode : Except PyError PyVal) : HandlerResult :=
  match bodyDecode with
  | .error e =>
    if caughtDecodeError e then .response 400 (.message "Unable to decode data")
    else .fault e
  | .ok data =>
    match create_query m data with
    | .error e => .fault e
    | .ok qops =>
      match pyLen data with
      | .error e => .fault e
      | .ok 0 => .response 204 .empty
      | .ok (_ + 1) =>
        match updateRelations eng m ((eng.runAll qops).map some) data with
        | .error e => .fault e
        | .ok touched =>
          match data with
          | .dict kvs =>
            let keys := kvs.map (·.1)
            let field_list := symmDiff keys touched
            let originalparams := field_list.filterMap
              (fun k => (dictLookup kvs k).map (fun v => (k, v)))
            match coerceParams eng m originalparams with
            | .error e => .fault e
            | .ok params =>
              let num_modified : Int := if params.isEmpty then 0 else (eng.runAll qops).length
              .response 200 (.obj (.dict [("num_modified", .int num_modified)]))
          | _ => .fault (.attributeError "object has no attribute keys")

/-- `API.patch`: dispatch to `_patch_many` when no instance id is present,
else to the single-instance update. -/
def apiPatch (eng : Engine) (m : ModelDesc) (db : List Instance) (instid : Option Int)
    (bodyDecode : Except PyError PyVal) : HandlerResult :=
  match instid with
  | Option.none => apiPatchMany eng m bodyDecode
  | some i => apiPatchOne eng m db i bodyDecode

/-- `API.post`, taking the outcome of `json.loads` on the request body.
Decode failure yields the 400 response; a non-mapping body faults on
`params.keys()`; otherwise the scalar columns among the payload keys
initialize a new instance, each declared relation among the payload keys has
its entries get-or-created and attached (each entry must be a mapping), and
the response is 201 with the fresh primary key. -/
def apiPost (eng : Engine) (m : ModelDesc) (bodyDecode : Except PyError PyVal) :
    HandlerResult :=
  match bodyDecode with
  | .error e =>
    if caughtDecodeError e then .response 400 (.message "Unable to decode data")
    else .fault e
  | .ok params =>
    match params with
    | .dict kvs =>
      let paramkeys := kvs.map (·.1)
      let relWork : Except PyError Unit :=
        forE (fun col => do
            let items ← pyIter ((dictLookup kvs col).getD .none)
            forE (fun sub =>
              match sub with
              | .dict _ => .ok ()
              | _ => .error (.typeError "argument after ** must be a mapping")) items)
          (m.relations.filter (fun c => paramkeys.contains c))
      match relWork with
      | .error e => .fault e
      | .ok _ => .response 201 (.obj (.dict [("id", .int eng.nextId)]))
    | _ => .fault (.attributeError "object has no attribute keys")

/-- A sample registered entity for concrete evaluations: scalar columns, a
`Date` column and one relationship. -/
def personModel : ModelDesc :=
  ⟨"Person", [("id", ColType.plain), ("name", ColType.plain), ("age", ColType.plain),
              ("birth_date", ColType.date), ("computers", ColType.rel)]⟩

/-- A sample stored instance. -/
def maryInstance : Instance := ⟨1, [("id", .int 1), ("name", .str "Mary")]⟩

/-- A storage engine whose queries match nothing and whose batched aggregate
query yields one row. -/
def noopEngine : Engine :=
  { runAll := fun _ => []
    funcRows := fun _ => [[.int 0]]
    serialize := fun inst => inst.fields
    getBySub := fun _ _ => Option.none
    getOrCreate := fun _ _ => ⟨0, []⟩
    parseDatetime := fun v => .ok v
    nextId := 1 }

/-- A storage engine whose batched aggregate query yields zero rows. -/
def emptyRowsEngine : Engine :=
  { noopEngine with funcRows := fun _ => [] }

/-- A storage engine whose queries match exactly the sample instance. -/
def oneMatchEngine : Engine :=
  { noopEngine with runAll := fun _ => [maryInstance] }

/-- A sample filter: `age > 18`. -/
def ageFilter : Filter := ⟨.str "age", .str "gt", .int 18, .none⟩

/-- A sample aggregate call: `sum(age)`. -/
def sumAgeFunction : Function := ⟨.str "sum", .str "age"⟩

/-- A sample ordering clause: `age asc`. -/
def ageAsc : OrderBy := ⟨.str "age", .str "asc"⟩

/-- A search descriptor requesting the `sum(age)` aggregate. -/
def sumAgeDescriptor : PyVal :=
  .dict [("functions", .list [.dict [("name", .str "sum"), ("field", .str "age")]])]

/-- Inversion for a successful `Except` bind. -/
theorem exbind_ok {α β : Type} {x : Except PyError α} {f : α → Except PyError β} {b : β}
    (h : x >>= f = .ok b) : ∃ a, x = .ok a ∧ f a = .ok b := by
  cases x with
  | error e => simp [Bind.bind, Except.bind] at h
  | ok a => exact ⟨a, rfl, by simpa [Bind.bind, Except.bind] using h⟩

/-- A successful `mapE` has one output per input. -/
theorem mapE_ok_length {α β : Type} {f : α → Except PyError β} :
    ∀ {xs : List α} {ys : List β}, mapE f xs = .ok ys → ys.length = xs.length := by
  intro xs
  induction xs with
  | nil =>
    intro ys h
    simp only [mapE] at h
    cases h
    rfl
  | cons x xs ih =>
    intro ys h
    simp only [mapE] at h
    cases hx : f x with
    | error e => rw [hx] at h; cases h
    | ok y =>
      rw [hx] at h
      cases hxs : mapE f xs with
      | error e => rw [hxs] at h; cases h
      | ok ys2 =>
        rw [hxs] at h
        cases h
        simp [ih hxs]

/-- A successful `mapE` applies `f` elementwise, in order. -/
theorem mapE_ok_get {α β : Type} {f : α → Except PyError β} :
    ∀ {xs : List α} {ys : List β}, mapE f xs = .ok ys →
      ∀ j, (hj : j < xs.length) → (hj2 : j < ys.length) → f (xs.get ⟨j, hj⟩) = .ok (ys.get ⟨j, hj2⟩) := by
  intro xs
  induction xs with
  | nil => intro ys h j hj hj2; exact absurd hj (by simp)
  | cons x xs ih =>
    intro ys h j hj hj2
    simp only [mapE] at h
    cases hx : f x with
    | error e => rw [hx] at h; cases h
    | ok y =>
      rw [hx] at h
      cases hxs : mapE f xs with
      | error e => rw [hxs] at h; cases h
      | ok ys2 =>
        rw [hxs] at h
        cases h
        cases j with
        | zero => simpa using hx
        | succ j =>
          exact ih hxs j (Nat.lt_of_succ_lt_succ hj) (Nat.lt_of_succ_lt_succ hj2)

/-- A primary key absent from the table is not found. -/
theorem dbFind_eq_none_of_not_mem (db : List Instance) (instid : Int)
    (h : instid ∉ db.map Instance.id) : dbFind db instid = Option.none := by
  simp only [dbFind]
  rw [List.find?_eq_none]
  intro x hx
  simp only [beq_iff_eq]
  intro hxi
  exact h (by rw [← hxi]; exact List.mem_map_of_mem Instance.id hx)

/-- Deleting an absent instance leaves the table unchanged. -/
theorem deleteFirst_of_none (db : List Instance) (instid : Int)
    (h : dbFind db instid = Option.none) :
    deleteFirst (fun x => x.id == instid) db = db := by
  induction db with
  | nil => rfl
  | cons x xs ih =>
    simp only [dbFind, List.find?_cons] at h
    cases hpx : (x.id == instid) with
    | true => rw [hpx] at h; cases h
    | false =>
      rw [hpx] at h
      simp [deleteFirst, hpx, ih h]

/-- With unique primary keys, the deleted instance cannot be found again. -/
theorem dbFind_deleteFirst (db : List Instance) (instid : Int)
    (hnd : (db.map Instance.id).Nodup) :
    dbFind (deleteFirst (fun x => x.id == instid) db) instid = Option.none := by
  induction db with
  | nil => rfl
  | cons x xs ih =>
    simp only [List.map_cons, List.nodup_cons] at hnd
    obtain ⟨hx, hxs⟩ := hnd
    by_cases hpx : x.id = instid
    · simp only [deleteFirst, hpx, beq_self_eq_true, if_pos]
      apply dbFind_eq_none_of_not_mem
      rw [← hpx]
      exact hx
    · have hb : (x.id == instid) = false := by simp [hpx]
      simp only [deleteFirst, hb, Bool.false_eq_true, if_neg, not_false_eq_true]
      simp only [dbFind, List.find?_cons, hb]
      exact ih hxs

/-- C7.  `delete(id)` is idempotent: for every table with unique primary keys
and every id, both a first call and an immediately subsequent second call
respond 204 no-content, and the second call neither changes the table nor
commits. -/
theorem claim7_thm (db : List Instance) (instid : Int)
    (hnd : (db.map Instance.id).Nodup) :
    (apiDelete db instid).2.2 = .response 204 .empty ∧
    (apiDelete (apiDelete db instid).1 instid).2.2 = .response 204 .empty ∧
    (apiDelete (apiDelete db instid).1 instid).1 = (apiDelete db instid).1 ∧
    (apiDelete (apiDelete db instid).1 instid).2.1 = false := by
  have h2 : dbFind (apiDelete db instid).1 instid = Option.none := by
    unfold apiDelete
    cases hfind : dbFind db instid with
    | none => simp [hfind]
    | some y =>
      simp only [hfind]
      exact dbFind_deleteFirst db instid hnd
  have h3 : apiDelete (apiDelete db instid).1 instid
      = ((apiDelete db instid).1, false, .response 204 .empty) := by
    generalize hg : (apiDelete db instid).1 = db1 at h2 ⊢
    unfold apiDelete
    rw [h2]
  refine ⟨?_, ?_, ?_, ?_⟩
  · cases hfind : dbFind db instid <;> simp [apiDelete, hfind]
  · rw [h3]
  · rw [h3]
  · rw [h3]

/-- Witness for C7 at a concrete one-row table. -/
theorem claim7_witness :
    ([maryInstance].map Instance.id).Nodup ∧
    ((apiDelete [maryInstance] 1).2.2 = .response 204 .empty ∧
     (apiDelete (apiDelete [maryInstance] 1).1 1).2.2 = .response 204 .empty ∧
     (apiDelete (apiDelete [maryInstance] 1).1 1).1 = (apiDelete [maryInstance] 1).1 ∧
     (apiDelete (apiDelete [maryInstance] 1).1 1).2.1 = false) :=
  ⟨by simp, claim7_thm [maryInstance] 1 (by simp)⟩

/-- C1 (counterexample).  At the concrete unknown token `"frobnicate"`, the
query builder fails with `TypeError` (`OPERATORS.get` returns `None`, which
is then called), not with an `UnknownOperator` error naming the token. -/
theorem claim1_counterexample :
    QueryBuilder.createOperation personModel (.str "age") (.str "frobnicate")
      (.val (.int 18)) Option.none
      = .error (.typeError "NoneType object is not callable") ∧
    QueryBuilder.createOperation personModel (.str "age") (.str "frobnicate")
      (.val (.int 18)) Option.none
      ≠ .error (.unknownOperator "frobnicate") := by
  refine ⟨rfl, ?_⟩
  intro h
  rw [show QueryBuilder.createOperation personModel (.str "age") (.str "frobnicate")
      (.val (.int 18)) Option.none
      = Except.error (.typeError "NoneType object is not callable") from rfl] at h
  simp at h

/-- C1 (amended).  For every operator token that is not a key of `OPERATORS`,
applied to any resolvable field, building the operation fails with the
generic `TypeError` raised by calling `None`, and never with an
`UnknownOperator` error. -/
theorem claim1_thm (m : ModelDesc) (fieldname : PyVal) (t : String) (arg : Arg)
    (rel : Option String) (fr : FieldRef)
    (hop : (OPERATORS.find? (fun p => p.1 == t)).isNone = true)
    (hfield : getattrModelP m (relTarget rel fieldname) = .ok fr) :
    QueryBuilder.createOperation m fieldname (.str t) arg rel
      = .error (.typeError "NoneType object is not callable") ∧
    ∀ s, QueryBuilder.createOperation m fieldname (.str t) arg rel
      ≠ .error (.unknownOperator s) := by
  have hfind : OPERATORS.find? (fun p => p.1 == t) = Option.none :=
    Option.isNone_iff_eq_none.mp hop
  have h1 : QueryBuilder.createOperation m fieldname (.str t) arg rel
      = .error (.typeError "NoneType object is not callable") := by
    simp [QueryBuilder.createOperation, lookupOperator, hfield, hfind,
          Bind.bind, Except.bind]
  refine ⟨h1, fun s h => ?_⟩
  rw [h1] at h
  simp at h

/-- Witness for C1 at the token `"frobnicate"` against the sample model. -/
theorem claim1_witness :
    (OPERATORS.find? (fun p => p.1 == "frobnicate")).isNone = true ∧
    getattrModelP personModel (relTarget Option.none (.str "age"))
      = .ok ⟨"Person", "age"⟩ ∧
    QueryBuilder.createOperation personModel (.str "age") (.str "frobnicate")
      (.val (.int 1)) Option.none
      = .error (.typeError "NoneType object is not callable") :=
  ⟨rfl, rfl,
    (claim1_thm personModel (.str "age") "frobnicate" (.val (.int 1)) Option.none
      ⟨"Person", "age"⟩ rfl rfl).1⟩

/-- C2.  Constructing a `SearchParameters` with both lists non-empty fails
(the exception actually raised is a `NameError`, because the raise names the
undefined `IllegalArgumentException`, but construction never succeeds), so
every successfully constructed value has at most one of the two non-empty. -/
theorem claim2_thm (filters : List Filter) (functions : List Function)
    (searchtype limit offset : PyVal) (order_by : List OrderBy) :
    (filters ≠ [] → functions ≠ [] →
      isOkE (SearchParameters.init filters functions searchtype limit offset order_by)
        = false) ∧
    (∀ sp, SearchParameters.init filters functions searchtype limit offset order_by
        = .ok sp → sp.filters = [] ∨ sp.functions = []) := by
  constructor
  · intro hf hg
    have h1 : filters.isEmpty = false := by
      cases filters with
      | nil => exact absurd rfl hf
      | cons a l => rfl
    have h2 : functions.isEmpty = false := by
      cases functions with
      | nil => exact absurd rfl hg
      | cons a l => rfl
    simp [SearchParameters.init, h1, h2, isOkE]
  · intro sp h
    unfold SearchParameters.init at h
    split at h
    · cases h
    · cases h
      rename_i hcond
      rw [Bool.and_eq_true, Bool.not_eq_true', Bool.not_eq_true'] at hcond
      push_neg at hcond
      by_cases hf : filters.isEmpty = true
      · exact Or.inl (List.isEmpty_iff.mp hf)
      · have hg := hcond (Bool.not_eq_true _ ▸ (by simpa using hf))
        exact Or.inr (List.isEmpty_iff.mp (by simpa using hg))

/-- Witness for C2 at a concrete one-filter, one-function specification. -/
theorem claim2_witness :
    isOkE (SearchParameters.init [ageFilter] [sumAgeFunction] .none .none .none [])
      = false :=
  (claim2_thm [ageFilter] [sumAgeFunction] .none .none .none []).1
    (by simp) (by simp)

/-- C3 (counterexample).  Constructing a filter with the falsy literal `0` as
its argument and no comparison field — exactly one of the two set — fails,
against the claim that it succeeds. -/
theorem claim3_counterexample :
    Filter.init (.str "age") (.str "eq") (.int 0) .none
      = .error (.nameError "ILLEGAL_ARG_MSG") := rfl

/-- C3 (amended).  Constructing a `Filter` succeeds exactly when precisely one
of the literal argument and the comparison field name is truthy in Python's
sense: falsy values such as `0`, `""`, `None` count as "not set", so a
filter with a falsy literal and no comparison field is rejected, and one
with a falsy literal and a truthy comparison field is accepted. -/
theorem claim3_thm (fieldname operator argument otherfield : PyVal) :
    isOkE (Filter.init fieldname operator argument otherfield)
      = (argument.truthy != otherfield.truthy) := by
  cases harg : argument.truthy <;> cases hoth : otherfield.truthy <;>
    simp [Filter.init, harg, hoth, isOkE]

/-- C9.  The string entry point is unusable: for every model and every input
string, `SearchParameters.from_string` raises (`self` is unbound in the
static method, so a `NameError` fires before any parsing) and the
`create_query` string path propagates that exception; no `SearchParameters`
value is ever produced. -/
theorem claim9_thm (m : ModelDesc) (s : String) :
    SearchParameters.fromString s = .error (.nameError "self") ∧
    create_query m (.str s) = .error (.nameError "self") :=
  ⟨rfl, rfl⟩

/-- C4 (counterexample).  The request body `5` is valid JSON that decodes to
a non-object; at the search entry point the membership test
`'functions' in data` then raises an uncaught `TypeError`, so the fault
propagates instead of producing a 400 message response. -/
theorem claim4_counterexample :
    apiSearch noopEngine personModel (.ok (.int 5))
      = .fault (.typeError "argument of type is not iterable") := rfl

/-- C4 (amended).  When `json.loads` itself raises one of the caught classes
(`TypeError`, `ValueError`, `OverflowError`), every entry point — search GET,
POST, PATCH-many and PATCH-one — responds 400 with the "Unable to decode
data" message; JSON that decodes to a non-object is not covered by this
handler and faults later (see the counterexample). -/
theorem claim4_thm (eng : Engine) (m : ModelDesc) (db : List Instance) (i : Int)
    (e : PyError) (hc : caughtDecodeError e = true) :
    apiSearch eng m (.error e) = .response 400 (.message "Unable to decode data") ∧
    apiPost eng m (.error e) = .response 400 (.message "Unable to decode data") ∧
    apiPatchMany eng m (.error e) = .response 400 (.message "Unable to decode data") ∧
    apiPatch eng m db (some i) (.error e)
      = .response 400 (.message "Unable to decode data") := by
  refine ⟨?_, ?_, ?_, ?_⟩ <;>
    simp [apiSearch, apiPost, apiPatchMany, apiPatch, apiPatchOne, hc]

/-- Witness for C4 at a concrete `ValueError` decode failure. -/
theorem claim4_witness :
    caughtDecodeError (.valueError "Expecting value") = true ∧
    (apiSearch noopEngine personModel (.error (.valueError "Expecting value"))
        = .response 400 (.message "Unable to decode data") ∧
      apiPost noopEngine personModel (.error (.valueError "Expecting value"))
        = .response 400 (.message "Unable to decode data") ∧
      apiPatchMany noopEngine personModel (.error (.valueError "Expecting value"))
        = .response 400 (.message "Unable to decode data") ∧
      apiPatch noopEngine personModel [] (some 1) (.error (.valueError "Expecting value"))
        = .response 400 (.message "Unable to decode data")) :=
  ⟨rfl, claim4_thm noopEngine personModel [] 1 (.valueError "Expecting value") rfl⟩

/-- C5 (counterexample).  A GET search whose descriptor contains functions,
evaluated against an engine whose batched aggregate query yields zero rows,
escapes as an unhandled `NoResultFound` fault — no message response is
produced, because the functions branch of `_search` is outside the
`try`/`except`. -/
theorem claim5_counterexample :
    apiSearch emptyRowsEngine personModel (.ok sumAgeDescriptor)
      = .fault .noResultFound := rfl

/-- C5 (amended).  For every GET search whose descriptor contains functions,
when the batched aggregate evaluation yields a row count other than exactly
one, the `NoResultFound` / `MultipleResultsFound` exception raised by
`.one()` propagates out of the handler as an unhandled fault; the message
mapping only guards the non-functions branch. -/
theorem claim5_thm (eng : Engine) (m : ModelDesc) (data : PyVal)
    (fns : List Function) (pairs : List (SQLFunc × String))
    (hin : pyContains data "functions" = .ok true)
    (hparse : parseFunctionsField data = .ok fns)
    (hres : resolveFunctions m fns = .ok pairs)
    (hrows : (eng.funcRows (pairs.map (·.1))).length ≠ 1) :
    apiSearch eng m (.ok data)
      = .fault (match eng.funcRows (pairs.map (·.1)) with
                | [] => PyError.noResultFound
                | _ => PyError.multipleResultsFound) := by
  have heval : evaluateFunctions eng m fns
      = .error (match eng.funcRows (pairs.map (·.1)) with
                | [] => PyError.noResultFound
                | _ => PyError.multipleResultsFound) := by
    unfold evaluateFunctions
    rw [hres]
    simp only [Bind.bind, Except.bind]
    cases hrw : eng.funcRows (pairs.map (·.1)) with
    | nil => rfl
    | cons r rest =>
      cases rest with
      | nil => exact absurd (by simp [hrw]) hrows
      | cons r2 rest2 => rfl
  simp only [apiSearch]
  rw [hin]
  simp only [hparse, Bind.bind, Except.bind, heval]

/-- Witness for C5: the concrete sum-of-age descriptor against the
zero-row engine. -/
theorem claim5_witness :
    pyContains sumAgeDescriptor "functions" = .ok true ∧
    parseFunctionsField sumAgeDescriptor = .ok [sumAgeFunction] ∧
    resolveFunctions personModel [sumAgeFunction]
      = .ok [(⟨"sum", ⟨"Person", "age"⟩⟩, "sum__age")] ∧
    (emptyRowsEngine.funcRows [⟨"sum", ⟨"Person", "age"⟩⟩]).length ≠ 1 ∧
    apiSearch emptyRowsEngine personModel (.ok sumAgeDescriptor)
      = .fault .noResultFound :=
  ⟨rfl, rfl, rfl, by simp [emptyRowsEngine, noopEngine],
    claim5_thm emptyRowsEngine personModel sumAgeDescriptor [sumAgeFunction]
      [(⟨"sum", ⟨"Person", "age"⟩⟩, "sum__age")] rfl rfl rfl
      (by simp [emptyRowsEngine, noopEngine])⟩

/-- C6.  For every search whose parsed descriptor has no functions and result
cardinality `"one"`: zero matching instances yields the message response
"No result found", two or more the message "Multiple results found", and
exactly one the bare serialized object, not wrapped in a list or an
`objects` envelope. -/
theorem claim6_thm (eng : Engine) (m : ModelDesc) (data : PyVal)
    (sp : SearchParameters) (qops : List QueryOp)
    (hin : pyContains data "functions" = .ok false)
    (hsp : SearchParameters.fromDictionary data = .ok sp)
    (hfn : sp.functions = [])
    (hone : pyEq sp.searchtype (.str "one") = true)
    (hq : QueryBuilder.createQuery m sp = .ok qops) :
    apiSearch eng m (.ok data) =
      match eng.runAll qops with
      | [] => .response 200 (.message "No result found")
      | [x] => .response 200 (.obj (.dict (eng.serialize x)))
      | _ :: _ :: _ => .response 200 (.message "Multiple results found") := by
  have hsearch : search eng m sp =
      match eng.runAll qops with
      | [] => .error .noResultFound
      | [x] => .ok (.dict (eng.serialize x))
      | _ :: _ :: _ => .error .multipleResultsFound := by
    unfold search
    rw [hfn]
    simp only [List.isEmpty_nil, Bool.not_true, Bool.false_eq_true, if_false,
               Bind.bind, Except.bind, hq, hone, if_true]
  simp only [apiSearch]
  rw [hin]
  simp only [hsp, Bind.bind, Except.bind, hsearch]
  cases eng.runAll qops with
  | nil => rfl
  | cons x rest =>
    cases rest with
    | nil => rfl
    | cons y rest2 => rfl

/-- Witness for C6: a `type=one` search against an engine matching exactly
the sample instance responds with the bare serialized object. -/
theorem claim6_witness :
    pyContains (PyVal.dict [("type", .str "one")]) "functions" = .ok false ∧
    SearchParameters.fromDictionary (.dict [("type", .str "one")])
      = .ok ⟨[], [], .str "one", .none, .none, []⟩ ∧
    pyEq (PyVal.str "one") (.str "one") = true ∧
    QueryBuilder.createQuery personModel ⟨[], [], .str "one", .none, .none, []⟩
      = .ok [] ∧
    apiSearch oneMatchEngine personModel (.ok (.dict [("type", .str "one")]))
      = .response 200 (.obj (.dict maryInstance.fields)) :=
  ⟨rfl, rfl, by simp [pyEq], rfl,
    claim6_thm oneMatchEngine personModel (.dict [("type", .str "one")])
      ⟨[], [], .str "one", .none, .none, []⟩ [] rfl rfl rfl (by simp [pyEq]) rfl⟩

/-- The query segment the specification expects for `limit`: applied exactly
when a positive integer limit is present. -/
def limitPart (v : PyVal) : List QueryOp :=
  match v with
  | .int n => if 0 < n then [QueryOp.limit (.int n)] else []
  | _ => []

/-- The query segment the specification expects for `offset`: applied exactly
when a non-zero integer offset is present (a zero offset is a no-op). -/
def offsetPart (v : PyVal) : List QueryOp :=
  match v with
  | .int n => if n != 0 then [QueryOp.offset (.int n)] else []
  | _ => []

/-- On the specification's domain for `limit` (absent or a positive integer),
the truthiness test of the source coincides with "present and positive". -/
theorem limitPart_eq (v : PyVal)
    (h : v = PyVal.none ∨ ∃ n : Int, v = .int n ∧ 0 < n) (q1 : List QueryOp) :
    (if v.truthy then q1 ++ [QueryOp.limit v] else q1) = q1 ++ limitPart v := by
  rcases h with h | ⟨n, h, hn⟩ <;> subst h
  · simp [PyVal.truthy, limitPart]
  · have ht : (PyVal.int n).truthy = true := by
      simp only [PyVal.truthy, bne_iff_ne]
      omega
    simp [ht, hn, limitPart]

/-- On the specification's domain for `offset` (absent or a non-negative
integer), the truthiness test of the source coincides with "present and
non-zero"; in particular a zero offset is skipped. -/
theorem offsetPart_eq (v : PyVal)
    (h : v = PyVal.none ∨ ∃ n : Int, v = .int n ∧ 0 ≤ n) (q2 : List QueryOp) :
    (if v.truthy then q2 ++ [QueryOp.offset v] else q2) = q2 ++ offsetPart v := by
  rcases h with h | ⟨n, h, _⟩ <;> subst h
  · simp [PyVal.truthy, offsetPart]
  · by_cases h0 : n = 0
    · subst h0
      simp [PyVal.truthy, offsetPart]
    · have ht : (PyVal.int n).truthy = true := by
        simp [PyVal.truthy, h0]
      simp [ht, h0, offsetPart]

/-- C8.  For every search specification in the spec's data-model domain
(`limit` absent or positive, `offset` absent or non-negative), a
successfully built query is composed, in order, of: the filter operations in
the filters' given order (one per filter, elementwise), then the ordering
clauses in their given sequence, then `.limit` exactly when a (positive)
limit is present, then `.offset` exactly when a non-zero offset is present —
so a zero offset leaves the query unchanged. -/
theorem claim8_thm (m : ModelDesc) (sp : SearchParameters) (q : List QueryOp)
    (hlim : sp.limit = PyVal.none ∨ ∃ n : Int, sp.limit = .int n ∧ 0 < n)
    (hoff : sp.offset = PyVal.none ∨ ∃ n : Int, sp.offset = .int n ∧ 0 ≤ n)
    (hq : QueryBuilder.createQuery m sp = .ok q) :
    ∃ preds oops,
      QueryBuilder.extractOperators m sp = .ok preds ∧
      preds.length = sp.filters.length ∧
      (∀ j, (hj : j < sp.filters.length) → (hj2 : j < preds.length) →
        QueryBuilder.filterToOp m (sp.filters.get ⟨j, hj⟩)
          = .ok (preds.get ⟨j, hj2⟩)) ∧
      mapE (resolveOrder m) sp.order_by = .ok oops ∧
      oops.length = sp.order_by.length ∧
      q = preds.map QueryOp.filt ++ oops ++ limitPart sp.limit
            ++ offsetPart sp.offset := by
  unfold QueryBuilder.createQuery at hq
  obtain ⟨preds, hpreds, hq2⟩ := exbind_ok hq
  obtain ⟨oops, hoops, hq3⟩ := exbind_ok hq2
  simp only [] at hq3
  refine ⟨preds, oops, hpreds, mapE_ok_length hpreds,
    (fun j hj hj2 => mapE_ok_get hpreds j hj hj2),
    hoops, mapE_ok_length hoops, ?_⟩
  cases hq3
  rw [offsetPart_eq sp.offset hoff, limitPart_eq sp.limit hlim]

/-- Witness for C8 at a concrete specification with one filter, one ordering
clause, limit 2 and offset 1. -/
theorem claim8_witness :
    ((PyVal.int 2) = PyVal.none ∨ ∃ n : Int, (PyVal.int 2) = .int n ∧ 0 < n) ∧
    ((PyVal.int 1) = PyVal.none ∨ ∃ n : Int, (PyVal.int 1) = .int n ∧ 0 ≤ n) ∧
    QueryBuilder.createQuery personModel
        ⟨[ageFilter], [], .none, .int 2, .int 1, [ageAsc]⟩
      = .ok [.filt (.gt ⟨"Person", "age"⟩ (.val (.int 18))),
             .order ⟨"Person", "age"⟩ "asc", .limit (.int 2), .offset (.int 1)] ∧
    (∃ preds oops,
      QueryBuilder.extractOperators personModel
          ⟨[ageFilter], [], .none, .int 2, .int 1, [ageAsc]⟩ = .ok preds ∧
      preds.length = ([ageFilter] : List Filter).length ∧
      (∀ j, (hj : j < ([ageFilter] : List Filter).length) → (hj2 : j < preds.length) →
        QueryBuilder.filterToOp personModel (([ageFilter] : List Filter).get ⟨j, hj⟩)
          = .ok (preds.get ⟨j, hj2⟩)) ∧
      mapE (resolveOrder personModel) [ageAsc] = .ok oops ∧
      oops.length = ([ageAsc] : List OrderBy).length ∧
      [QueryOp.filt (.gt ⟨"Person", "age"⟩ (.val (.int 18))),
       QueryOp.order ⟨"Person", "age"⟩ "asc",
       QueryOp.limit (.int 2), QueryOp.offset (.int 1)]
        = preds.map QueryOp.filt ++ oops ++ limitPart (.int 2)
            ++ offsetPart (.int 1)) :=
  ⟨Or.inr ⟨2, rfl, by norm_num⟩, Or.inr ⟨1, rfl, by norm_num⟩, rfl,
    claim8_thm personModel ⟨[ageFilter], [], .none, .int 2, .int 1, [ageAsc]⟩ _
      (Or.inr ⟨2, rfl, by norm_num⟩) (Or.inr ⟨1, rfl, by norm_num⟩) rfl⟩

/-- A successful step of the relation-update loop only appends the processed
relation name to the accumulator. -/
theorem processRelation_ok_shape (eng : Engine) (targets : List (Option Instance))
    (kvs : List (String × PyVal)) (fields : List String) (col : String)
    (r : List String) (h : processRelation eng targets kvs fields col = .ok r) :
    r = fields ++ [col] := by
  simp only [processRelation] at h
  obtain ⟨a1, h1, h⟩ := exbind_ok h
  obtain ⟨a2, h2, h⟩ := exbind_ok h
  obtain ⟨a3, h3, h⟩ := exbind_ok h
  obtain ⟨a4, h4, h⟩ := exbind_ok h
  obtain ⟨a5, h5, h⟩ := exbind_ok h
  obtain ⟨a6, h6, h⟩ := exbind_ok h
  cases h
  rfl

/-- A successful fold of the relation-update loop only accumulates names
from the initial accumulator and the iterated list. -/
theorem foldE_processRelation_mem (eng : Engine) (targets : List (Option Instance))
    (kvs : List (String × PyVal)) :
    ∀ (cols acc r : List String),
      foldE (processRelation eng targets kvs) acc cols = .ok r →
      ∀ c ∈ r, c ∈ acc ∨ c ∈ cols := by
  intro cols
  induction cols with
  | nil =>
    intro acc r h c hc
    simp only [foldE] at h
    cases h
    exact Or.inl hc
  | cons x xs ih =>
    intro acc r h c hc
    simp only [foldE] at h
    obtain ⟨b1, hb1, h⟩ := exbind_ok h
    have hsh := processRelation_ok_shape eng targets kvs acc x b1 hb1
    subst hsh
    rcases ih (acc ++ [x]) r h c hc with hin | hin
    · rcases List.mem_append.mp hin with h1 | h1
      · exact Or.inl h1
      · right
        simp only [List.mem_singleton] at h1
        simp [h1]
    · exact Or.inr (List.mem_cons_of_mem x hin)

/-- Every relation name the updater reports as touched is a declared
relation of the model. -/
theorem updateRelations_ok_subset (eng : Engine) (m : ModelDesc)
    (targets : List (Option Instance)) (kvs : List (String × PyVal))
    (touched : List String)
    (h : updateRelations eng m targets (.dict kvs) = .ok touched) :
    ∀ c ∈ touched, c ∈ m.relations := by
  simp only [updateRelations] at h
  intro c hc
  rcases foldE_processRelation_mem eng targets kvs _ [] touched h c hc with h1 | h1
  · exact absurd h1 (List.not_mem_nil c)
  · exact List.mem_of_mem_filter h1

/-- C10 (amended).  For every PATCH to the required-instance route whose body
contains at least one key that is not a declared relation, and whose id
matches no stored instance, the handler raises an unhandled fault —
attribute access / assignment on the missing instance when the relation
entries and the field coercion process cleanly, or the fault those steps
raise themselves — instead of returning a 404 response, unlike retrieval,
which responds 404 for the same id.  (A body consisting only of relation
entries with no add/remove items instead falls through to that 404; see the
counterexample.) -/
theorem claim10_thm (eng : Engine) (m : ModelDesc) (db : List Instance) (i : Int)
    (kvs : List (String × PyVal)) (k : String)
    (hk : k ∈ kvs.map (fun x => x.1))
    (hknr : m.relations.contains k = false)
    (hmiss : dbFind db i = Option.none) :
    (∃ e, apiPatch eng m db (some i) (.ok (.dict kvs)) = .fault e) ∧
    apiGet eng m db (some i) (.ok .none) = .response 404 .empty := by
  constructor
  · cases kvs with
    | nil => simp at hk
    | cons kv0 rest =>
      show ∃ e, apiPatchOne eng m db i (.ok (.dict (kv0 :: rest))) = .fault e
      cases hupd : updateRelations eng m [Option.none] (.dict (kv0 :: rest)) with
      | error e =>
        refine ⟨e, ?_⟩
        simp only [apiPatchOne, pyLen, List.length_cons, hmiss, hupd]
      | ok touched =>
        have hnmem : k ∉ touched := by
          intro hmem
          have hrel := updateRelations_ok_subset eng m [Option.none]
            (kv0 :: rest) touched hupd k hmem
          have hcr : m.relations.contains k = true := by simpa using hrel
          rw [hknr] at hcr
          cases hcr
        have hkFL : k ∈ symmDiff ((kv0 :: rest).map (fun x => x.1)) touched := by
          unfold symmDiff
          apply List.mem_append_left
          apply List.mem_filter.mpr
          exact ⟨hk, by simpa using hnmem⟩
        cases hco : coerceParams eng m
            ((symmDiff ((kv0 :: rest).map (fun x => x.1)) touched).filterMap
              (fun k => (dictLookup (kv0 :: rest) k).map (fun v => (k, v)))) with
        | error e =>
          refine ⟨e, ?_⟩
          simp only [apiPatchOne, pyLen, List.length_cons, hmiss, hupd, hco]
        | ok params =>
          cases hFL : symmDiff ((kv0 :: rest).map (fun x => x.1)) touched with
          | nil =>
            rw [hFL] at hkFL
            exact absurd hkFL (List.not_mem_nil k)
          | cons f fs =>
            refine ⟨.attributeError ("NoneType object has no attribute " ++ f), ?_⟩
            rw [hFL] at hco
            simp only [apiPatchOne, pyLen, List.length_cons, hmiss, hupd, hFL, hco]
  · unfold apiGet
    simp only [hmiss]

/-- C10 (counterexample).  A PATCH with the non-empty body
`{"computers": {}}` (one declared relation, no add/remove entries) and a
missing id does not fault: the relation loop touches the relation, the
plain-field list becomes empty, no `setattr` runs, and the handler falls
through to `self.get`, responding 404 — refuting "for every non-empty
body". -/
theorem claim10_counterexample :
    apiPatch noopEngine personModel [] (some 7)
      (.ok (.dict [("computers", .dict [])]))
      = .response 404 .empty := rfl

/-- Witness for C10 at the concrete mixed body
`{"computers": {}, "name": "Bob"}` against an empty table. -/
theorem claim10_witness :
    "name" ∈ ([("computers", PyVal.dict []), ("name", PyVal.str "Bob")].map
      (fun x => x.1)) ∧
    personModel.relations.contains "name" = false ∧
    dbFind [] 7 = Option.none ∧
    ((∃ e, apiPatch noopEngine personModel [] (some 7)
        (.ok (.dict [("computers", PyVal.dict []), ("name", PyVal.str "Bob")]))
        = .fault e) ∧
     apiGet noopEngine personModel [] (some 7) (.ok .none)
        = .response 404 .empty) :=
  ⟨by simp, rfl, rfl,
    claim10_thm noopEngine personModel [] 7
      [("computers", PyVal.dict []), ("name", PyVal.str "Bob")] "name"
      (by simp) rfl rfl⟩

end Restful
